import Mathlib

/-!
Shallow embedding of the gonokami-bot queue-number subscription subsystem:
the current-number source adapter (src/utils/number.ts), the subscription
store operations (src/utils/subscription.ts), the subscribe tool of the
command surface (src/bot.ts, subscribe_number) and the matching / expiry
engine (src/bot.ts, checkSubscriptions).  Machine time and queue numbers
are JavaScript numbers holding integer values; they are modelled as Int.
-/

namespace Gonokami

/-- Value of a JavaScript expression of declared type number-or-null as it
can actually occur at runtime: a number, null, or undefined.  JavaScript
distinguishes null from undefined and the callers in this code base test
with strict equality against null. -/
inductive JSVal where
  | vnum (n : Int)
  | vnull
  | vundef
deriving DecidableEq, Repr

/-- JavaScript relational comparison v >= t for t a number: a number
compares as an integer here, undefined converts to NaN so every comparison
is false, and null coerces to 0. -/
def jsGE : JSVal → Int → Bool
  | .vnum n, t => decide (t ≤ n)
  | .vnull, t => decide (t ≤ 0)
  | .vundef, _ => false

/-- JavaScript relational comparison n <= v for n a number, mirroring the
test numTarget <= currentNumber of the subscribe handler. -/
def jsLEcur (n : Int) : JSVal → Bool
  | .vnum c => decide (n ≤ c)
  | .vnull => decide (n ≤ 0)
  | .vundef => false

/-- Result of JSON.parse on a record's detail_json field, abstracted to the
parts the code reads.  The selections field is none when the parsed value
has no selections member, in which case the subsequent key access throws a
TypeError; it is some lk when a selections object is present, lk being the
lookup of the fixed key: none when the key is absent (the access yields
undefined) and some n when it holds the number n. -/
structure DetailJson where
  selections : Option (Option Int)
deriving DecidableEq, Repr

/-- One record of the upstream feed after the network fetch and the
top-level json decode.  The detail field models JSON.parse of detail_json:
none when that parse throws, some d when it yields d. -/
structure UpstreamRecord where
  updDate : Int
  detail : Option DetailJson
deriving DecidableEq, Repr

/-- Insertion of a record into a list already sorted by updDate descending,
used to model the sort by (a, b) => b.UpdDate - a.UpdDate. -/
def insertByUpdDateDesc (r : UpstreamRecord) : List UpstreamRecord → List UpstreamRecord
  | [] => [r]
  | x :: xs =>
    if x.updDate ≤ r.updDate then r :: x :: xs
    else x :: insertByUpdDateDesc r xs

/-- The sort of the decoded upstream records by UpdDate descending. -/
def sortByUpdDateDesc : List UpstreamRecord → List UpstreamRecord
  | [] => []
  | x :: xs => insertByUpdDateDesc x (sortByUpdDateDesc xs)

/-- The module level numberCache of src/utils/number.ts. -/
structure NumberCache where
  value : JSVal
  timestamp : Int
deriving DecidableEq, Repr

/-- Initial state of the cache: value null, timestamp 0. -/
def initialNumberCache : NumberCache := { value := .vnull, timestamp := 0 }

/-- The 60 second cache lifetime of getCurrentNumber, in milliseconds. -/
def cacheTTL : Int := 60 * 1000

/-- Observable outcome of one getCurrentNumber call: the returned value,
the cache state afterwards, and whether an upstream network fetch was
issued during the call. -/
structure FetchCallResult where
  ret : JSVal
  cache : NumberCache
  fetched : Bool
deriving DecidableEq, Repr

/-- getCurrentNumber of src/utils/number.ts.  The upstream argument models
the behaviour of the network interaction of this call: none when the fetch,
the json decode or the sort throws (all are caught and yield null), some
records when a record list is decoded.  now is Date.now() at entry. -/
def getCurrentNumber (upstream : Option (List UpstreamRecord)) (now : Int)
    (cache : NumberCache) : FetchCallResult :=
  if now - cache.timestamp < cacheTTL ∧ cache.value ≠ .vnull then
    ⟨cache.value, cache, false⟩
  else
    match upstream with
    | none => ⟨.vnull, cache, true⟩
    | some records =>
      match sortByUpdDateDesc records with
      | [] => ⟨.vnull, cache, true⟩
      | r :: _ =>
        match r.detail with
        | none => ⟨.vnull, cache, true⟩
        | some d =>
          match d.selections with
          | none => ⟨.vnull, cache, true⟩
          | some lk =>
            match lk with
            | none => ⟨.vundef, ⟨.vundef, now⟩, true⟩
            | some n => ⟨.vnum n, ⟨.vnum n, now⟩, true⟩

/-- Number of upstream fetches issued by two consecutive getCurrentNumber
calls, the second call starting from the cache the first one left. -/
def twoCallsFetchCount (env1 env2 : Option (List UpstreamRecord))
    (t1 t2 : Int) (cache : NumberCache) : Nat :=
  let r1 := getCurrentNumber env1 t1 cache
  let r2 := getCurrentNumber env2 t2 r1.cache
  (if r1.fetched then 1 else 0) + (if r2.fetched then 1 else 0)

/-- A stored subscription record, src/utils/subscription.ts. -/
structure Subscription where
  chat_id : Int
  user_id : Int
  first_name : String
  target_number : Int
  created_at : Int
  message_id : Int
deriving DecidableEq, Repr

/-- The predicate s.chat_id === chatId && s.user_id === userId used by
find, findIndex and the duplicate check. -/
def matchesPair (chatId userId : Int) (s : Subscription) : Bool :=
  decide (s.chat_id = chatId ∧ s.user_id = userId)

/-- findSubscription of src/utils/subscription.ts. -/
def findSubscription (subs : List Subscription) (chatId userId : Int) :
    Option Subscription :=
  subs.find? (matchesPair chatId userId)

/-- Result type of addSubscription. -/
inductive AddSubResult where
  | ok (sub : Subscription)
  | er (reason : String)
deriving DecidableEq, Repr

/-- addSubscription of src/utils/subscription.ts, over the store content
read by getAll.  nowMs is Date.now() at the call.  The second component is
the store content afterwards and the third is whether saveAll persisted. -/
def addSubscription (subs : List Subscription) (chatId userId : Int)
    (firstName : String) (targetNumber : Int) (messageId : Int)
    (nowMs : Int) : AddSubResult × List Subscription × Bool :=
  if (subs.find? (matchesPair chatId userId)).isSome then
    (.er "duplicate", subs, false)
  else
    (.ok ⟨chatId, userId, firstName, targetNumber, nowMs, messageId⟩,
      subs ++ [⟨chatId, userId, firstName, targetNumber, nowMs, messageId⟩],
      true)

/-- removeSubscription of src/utils/subscription.ts: findIndex followed by
splice(idx, 1) and saveAll; when findIndex misses, return before any write.
List.findIdx returns the length when nothing matches, modelling the -1 of
findIndex. -/
def removeSubscription (subs : List Subscription) (chatId userId : Int) :
    Option Subscription × List Subscription × Bool :=
  let idx := subs.findIdx (matchesPair chatId userId)
  if idx = subs.length then (none, subs, false)
  else (subs[idx]?, subs.eraseIdx idx, true)

/-- MIN_NUMBER of src/utils/subscription.ts. -/
def MIN_NUMBER : Int := 1001

/-- MAX_NUMBER of src/utils/subscription.ts. -/
def MAX_NUMBER : Int := 1200

/-- A JavaScript number as tested by the validation code: NaN, an integer,
or a finite non-integer for which Number.isInteger is false. -/
inductive JSNum where
  | nan
  | int (n : Int)
  | nonIntFloat
deriving DecidableEq, Repr

/-- validateTargetNumber of src/utils/subscription.ts: null when valid,
otherwise the error key, checks in source order. -/
def validateTargetNumber (num : JSNum) (currentNumber : Int) : Option String :=
  match num with
  | .nan => some "not_int"
  | .nonIntFloat => some "not_int"
  | .int n =>
    if n < MIN_NUMBER ∨ n > MAX_NUMBER then some "out_of_range"
    else if n ≤ currentNumber then some "already_passed"
    else none

/-- User visible outcome of the subscribe_number tool of src/bot.ts. -/
inductive SubscribeReply where
  | unavailable
  | badNumber
  | alreadyPassed
  | duplicate
  | subscribed
deriving DecidableEq, Repr

/-- The subscribe_number tool of src/bot.ts (private chat path), after the
current number was fetched: validation in source order, duplicate check,
then push plus persist.  Returns the reply, the store afterwards, and
whether a store write happened. -/
def subscribe_number (subs : List Subscription) (currentNumber : JSVal)
    (target : JSNum) (chatId userId : Int) (firstName : String)
    (messageId nowMs : Int) : SubscribeReply × List Subscription × Bool :=
  if currentNumber = .vnull then (.unavailable, subs, false)
  else
    match target with
    | .nan => (.badNumber, subs, false)
    | .nonIntFloat => (.badNumber, subs, false)
    | .int n =>
      if n < 1001 ∨ n > 1200 then (.badNumber, subs, false)
      else if jsLEcur n currentNumber then (.alreadyPassed, subs, false)
      else if (subs.find? (matchesPair chatId userId)).isSome then
        (.duplicate, subs, false)
      else
        (.subscribed,
          subs ++ [⟨chatId, userId, firstName, n, nowMs, messageId⟩],
          true)

/-- The five hour expiry window of checkSubscriptions, in milliseconds. -/
def fiveHours : Int := 5 * 60 * 60 * 1000

/-- Classification outcome of one subscription in a tick. -/
inductive Outcome where
  | reached
  | expired
  | pending
deriving DecidableEq, Repr

/-- Classification of one subscription by the loop body of
checkSubscriptions: the reached test runs first, the expiry test only when
it fails, otherwise the subscription is kept. -/
def classify (currentNumber : JSVal) (now : Int) (s : Subscription) : Outcome :=
  if jsGE currentNumber s.target_number then .reached
  else if now - s.created_at > fiveHours then .expired
  else .pending

/-- Externally observable effect of a tick, in initiation order: a
notification send handed to the transport, or the single replace-all store
write of the remaining subscriptions. -/
inductive TickEvent where
  | notifyReached (s : Subscription)
  | notifyExpired (s : Subscription)
  | persist (subs : List Subscription)
deriving DecidableEq, Repr

/-- The for loop of checkSubscriptions: safeSendMessage is called inside
the loop, so send events are emitted in list order as each subscription is
classified; the second component collects remainingSubscriptions. -/
def tickLoop (currentNumber : JSVal) (now : Int) :
    List Subscription → List TickEvent × List Subscription
  | [] => ([], [])
  | s :: rest =>
    let r := tickLoop currentNumber now rest
    match classify currentNumber now s with
    | .reached => (.notifyReached s :: r.1, r.2)
    | .expired => (.notifyExpired s :: r.1, r.2)
    | .pending => (r.1, s :: r.2)

/-- checkSubscriptions of src/bot.ts for one tick, given the value the
current-number fetch produced: the event trace in initiation order and the
store content after the tick.  An empty store returns before the fetch; a
null current number returns before the loop; otherwise the loop runs and
the final statement persists the remaining subscriptions. -/
def checkSubscriptions (subs : List Subscription) (currentNumber : JSVal)
    (now : Int) : List TickEvent × List Subscription :=
  if subs.isEmpty then ([], subs)
  else if currentNumber = .vnull then ([], subs)
  else
    let r := tickLoop currentNumber now subs
    (r.1 ++ [.persist r.2], r.2)

/-- Iterated store effect of the engine over a sequence of tick inputs,
each input being the fetched current number and the wall clock time. -/
def runTicks : List (JSVal × Int) → List Subscription → List Subscription
  | [], subs => subs
  | (c, t) :: rest, subs => runTicks rest (checkSubscriptions subs c t).2

/-- True of a send event, false of the persist. -/
def isSend : TickEvent → Bool
  | .notifyReached _ => true
  | .notifyExpired _ => true
  | .persist _ => false

/-- True of the persist event. -/
def isPersist : TickEvent → Bool
  | .persist _ => true
  | .notifyReached _ => false
  | .notifyExpired _ => false

/-- True when no send event occurs anywhere before a later persist event
in the trace, the ordering the spec requires of a tick. -/
def noSendBeforePersist : List TickEvent → Bool
  | [] => true
  | e :: rest => (!(isSend e) || !(rest.any isPersist)) && noSendBeforePersist rest

/-- True when the trace is a run of send events closed by one final
persist event. -/
def allSendsThenOnePersist : List TickEvent → Bool
  | [] => false
  | [e] => isPersist e
  | e :: rest => isSend e && allSendsThenOnePersist rest

/-- Number of stored subscriptions for one (chat, user) pair. -/
def countPair (subs : List Subscription) (chatId userId : Int) : Nat :=
  (subs.filter (matchesPair chatId userId)).length

/-- Concrete subscription used by counterexamples and witnesses: chat 10,
user 20, target 1050, created at time 0. -/
def cexSub : Subscription := ⟨10, 20, "alice", 1050, 0, 7⟩

/-- Concrete upstream environment whose single record decodes, carries a
selections object, but lacks the current-number key. -/
def missingFieldEnv : Option (List UpstreamRecord) :=
  some [⟨0, some ⟨some none⟩⟩]

/-- Concrete upstream environment whose single record carries the current
number 1042. -/
def goodEnv : Option (List UpstreamRecord) :=
  some [⟨0, some ⟨some (some 1042)⟩⟩]

/-! Helper lemmas about the tick loop and the tick itself. -/

/-- Every subscription kept by the loop was in the input and classified
pending. -/
lemma tickLoop_mem_rem {c : JSVal} {now : Int} {s : Subscription} :
    ∀ {l : List Subscription}, s ∈ (tickLoop c now l).2 →
      s ∈ l ∧ classify c now s = .pending := by
  intro l
  induction l with
  | nil => intro h; exact absurd h (by simp [tickLoop])
  | cons a l ih =>
    intro h
    unfold tickLoop at h
    rcases hcl : classify c now a with _ | _ | _ <;> rw [hcl] at h
    · exact ⟨List.mem_cons_of_mem a (ih h).1, (ih h).2⟩
    · exact ⟨List.mem_cons_of_mem a (ih h).1, (ih h).2⟩
    · rcases List.mem_cons.1 h with he | hm
      · exact ⟨by simp [he], he ▸ hcl⟩
      · exact ⟨List.mem_cons_of_mem a (ih hm).1, (ih hm).2⟩

/-- Every pending subscription of the input is kept by the loop. -/
lemma tickLoop_mem_pending {c : JSVal} {now : Int} {s : Subscription} :
    ∀ {l : List Subscription}, s ∈ l → classify c now s = .pending →
      s ∈ (tickLoop c now l).2 := by
  intro l
  induction l with
  | nil => intro h; exact absurd h (by simp)
  | cons a l ih =>
    intro hm hp
    unfold tickLoop
    rcases List.mem_cons.1 hm with he | hm
    · subst he
      rw [hp]
      exact List.mem_cons_self _ _
    · rcases hcl : classify c now a with _ | _ | _ <;> simp [ih hm hp]

/-- A subscription classified Reached gets its reached notification event
emitted by the loop. -/
lemma tickLoop_reached_event {c : JSVal} {now : Int} {s : Subscription} :
    ∀ {l : List Subscription}, s ∈ l → classify c now s = .reached →
      TickEvent.notifyReached s ∈ (tickLoop c now l).1 := by
  intro l
  induction l with
  | nil => intro h; exact absurd h (by simp)
  | cons a l ih =>
    intro hm hp
    unfold tickLoop
    rcases List.mem_cons.1 hm with he | hm
    · subst he
      rw [hp]
      exact List.mem_cons_self _ _
    · rcases hcl : classify c now a with _ | _ | _ <;> simp [ih hm hp]

/-- An expiry notification event is only emitted for a subscription the
loop classified Expired. -/
lemma tickLoop_expired_event {c : JSVal} {now : Int} {s : Subscription} :
    ∀ {l : List Subscription},
      TickEvent.notifyExpired s ∈ (tickLoop c now l).1 →
        classify c now s = .expired := by
  intro l
  induction l with
  | nil => intro h; exact absurd h (by simp [tickLoop])
  | cons a l ih =>
    intro h
    unfold tickLoop at h
    rcases hcl : classify c now a with _ | _ | _ <;> rw [hcl] at h
    · rcases List.mem_cons.1 h with he | hm
      · exact absurd he (by simp)
      · exact ih hm
    · rcases List.mem_cons.1 h with he | hm
      · cases he; exact hcl
      · exact ih hm
    · exact ih h

/-- Every event the loop emits is a send. -/
lemma tickLoop_events_send (c : JSVal) (now : Int) :
    ∀ l : List Subscription, ∀ e ∈ (tickLoop c now l).1, isSend e = true := by
  intro l
  induction l with
  | nil => intro e he; exact absurd he (by simp [tickLoop])
  | cons a l ih =>
    intro e he
    unfold tickLoop at he
    rcases hcl : classify c now a with _ | _ | _ <;> rw [hcl] at he
    · rcases List.mem_cons.1 he with he1 | hm
      · simp [he1, isSend]
      · exact ih e hm
    · rcases List.mem_cons.1 he with he1 | hm
      · simp [he1, isSend]
      · exact ih e hm
    · exact ih e he

/-- A non-empty store and an available current number run the loop and
close the tick with the single persist of the remaining subscriptions. -/
lemma checkSubscriptions_eq {subs : List Subscription} {c : JSVal} (now : Int)
    (hne : subs ≠ []) (hc : c ≠ .vnull) :
    checkSubscriptions subs c now
      = ((tickLoop c now subs).1 ++ [.persist (tickLoop c now subs).2],
          (tickLoop c now subs).2) := by
  cases subs with
  | nil => exact absurd rfl hne
  | cons a l => simp [checkSubscriptions, hc]

/-- Unfolding equation for a trace of at least two events. -/
lemma allSendsThenOnePersist_cons (e : TickEvent) {rest : List TickEvent}
    (h : rest ≠ []) :
    allSendsThenOnePersist (e :: rest)
      = (isSend e && allSendsThenOnePersist rest) := by
  cases rest with
  | nil => exact absurd rfl h
  | cons f fs => rfl

/-- A trace of sends closed by one persist satisfies
allSendsThenOnePersist. -/
lemma allSendsThenOnePersist_append (evs : List TickEvent)
    (rem : List Subscription) (h : ∀ e ∈ evs, isSend e = true) :
    allSendsThenOnePersist (evs ++ [.persist rem]) = true := by
  induction evs with
  | nil => rfl
  | cons e evs ih =>
    rw [List.cons_append, allSendsThenOnePersist_cons e (by simp)]
    rw [h e (List.mem_cons_self _ _), ih fun x hx => h x (List.mem_cons_of_mem e hx)]
    rfl

/-- The store content a tick leaves behind is a subset of what it read. -/
lemma checkSubscriptions_snd_subset {subs : List Subscription} {c : JSVal}
    {now : Int} {s : Subscription} (h : s ∈ (checkSubscriptions subs c now).2) :
    s ∈ subs := by
  by_cases hne : subs = []
  · subst hne
    simp [checkSubscriptions] at h
  · by_cases hc : c = .vnull
    · subst hc
      cases subs with
      | nil => exact absurd rfl hne
      | cons a l => simpa [checkSubscriptions] using h
    · rw [checkSubscriptions_eq now hne hc] at h
      exact (tickLoop_mem_rem h).1

/-- Once a subscription is absent from the store, no sequence of engine
ticks can bring it back. -/
lemma runTicks_not_mem {s : Subscription} :
    ∀ (ticks : List (JSVal × Int)) {st : List Subscription}, s ∉ st →
      s ∉ runTicks ticks st := by
  intro ticks
  induction ticks with
  | nil => intro st h; exact h
  | cons p rest ih =>
    intro st h
    rcases p with ⟨c, t⟩
    exact ih fun hs => h (checkSubscriptions_snd_subset hs)

/-- Any getCurrentNumber call either answers from the cache without
touching it, or fetches and returns null leaving the cache untouched, or
fetches and installs the returned value with the call time. -/
lemma getCurrentNumber_cases (env : Option (List UpstreamRecord)) (t : Int)
    (c : NumberCache) :
    ((getCurrentNumber env t c).fetched = false ∧ (getCurrentNumber env t c).cache = c)
    ∨ ((getCurrentNumber env t c).ret = .vnull ∧ (getCurrentNumber env t c).cache = c)
    ∨ (getCurrentNumber env t c).cache = ⟨(getCurrentNumber env t c).ret, t⟩ := by
  unfold getCurrentNumber
  split
  · exact Or.inl ⟨rfl, rfl⟩
  · split
    · exact Or.inr (Or.inl ⟨rfl, rfl⟩)
    · split
      · exact Or.inr (Or.inl ⟨rfl, rfl⟩)
      · split
        · exact Or.inr (Or.inl ⟨rfl, rfl⟩)
        · split
          · exact Or.inr (Or.inl ⟨rfl, rfl⟩)
          · split
            · exact Or.inr (Or.inr rfl)
            · exact Or.inr (Or.inr rfl)

/-- A call finding a fresh cached number answers it with no fetch and no
cache change. -/
lemma getCurrentNumber_cache_hit (env : Option (List UpstreamRecord))
    {t1 t2 : Int} {n : Int} (httl : t2 - t1 < cacheTTL) :
    getCurrentNumber env t2 ⟨.vnum n, t1⟩ = ⟨.vnum n, ⟨.vnum n, t1⟩, false⟩ := by
  unfold getCurrentNumber
  split
  · rfl
  · rename_i hcond
    exact absurd ⟨httl, by simp⟩ hcond

/-- The pair count is positive exactly when find? hits. -/
lemma countPair_pos_iff {subs : List Subscription} {c u : Int} :
    0 < countPair subs c u ↔ (subs.find? (matchesPair c u)).isSome = true := by
  rw [countPair, List.length_pos, Ne, List.filter_eq_nil_iff]
  push_neg
  simp [List.find?_isSome]

/-- A missing find? means a zero pair count. -/
lemma countPair_eq_zero_of_find_none {subs : List Subscription} {c u : Int}
    (h : ¬(subs.find? (matchesPair c u)).isSome = true) :
    countPair subs c u = 0 := by
  by_contra hne
  exact h (countPair_pos_iff.1 (Nat.pos_of_ne_zero hne))

/-- Appending one record adds one to the count of its own pair and leaves
every other pair count unchanged. -/
lemma countPair_append_single (subs : List Subscription) (x : Subscription)
    (c u : Int) :
    countPair (subs ++ [x]) c u
      = countPair subs c u + (if matchesPair c u x then 1 else 0) := by
  cases h : matchesPair c u x <;>
    simp [countPair, List.filter_append, List.filter_cons, h]

/-- Erasing an index never increases a pair count. -/
lemma countPair_eraseIdx_le (subs : List Subscription) (i : Nat) (c u : Int) :
    countPair (subs.eraseIdx i) c u ≤ countPair subs c u :=
  ((List.eraseIdx_sublist subs i).filter _).length_le

/-! Theorems -/

/-- C2: in a tick where getCurrentNumber produced Unavailable (null), the
engine emits no event at all — no notification send and no store write —
and the store content after the tick equals the store content before. -/
theorem C2_failsafe_on_outage (subs : List Subscription) (now : Int) :
    checkSubscriptions subs JSVal.vnull now = ([], subs) := by
  unfold checkSubscriptions
  split
  · rfl
  · simp

/-- C4: a subscription whose target is already reached and whose expiry
window has also elapsed at the same tick is classified Reached, never
Expired: the tick emits its number-came-up notification, emits no expiry
notification for it, and drops it from the persisted set. -/
theorem C4_reached_precedence (subs : List Subscription) (c now : Int)
    (s : Subscription) (hmem : s ∈ subs) (hreach : s.target_number ≤ c)
    (hexp : now - s.created_at > fiveHours) :
    classify (JSVal.vnum c) now s = .reached
    ∧ TickEvent.notifyReached s ∈ (checkSubscriptions subs (JSVal.vnum c) now).1
    ∧ TickEvent.notifyExpired s ∉ (checkSubscriptions subs (JSVal.vnum c) now).1
    ∧ s ∉ (checkSubscriptions subs (JSVal.vnum c) now).2 := by
  have hcl : classify (JSVal.vnum c) now s = .reached := by
    simp [classify, jsGE, hreach]
  have hne : subs ≠ [] := by
    rintro rfl
    exact absurd hmem (by simp)
  have hceq := @checkSubscriptions_eq subs (JSVal.vnum c) now hne (by simp)
  refine ⟨hcl, ?_, ?_, ?_⟩
  · rw [hceq]
    exact List.mem_append_left _ (tickLoop_reached_event hmem hcl)
  · rw [hceq]
    intro hx
    rcases List.mem_append.1 hx with hx1 | hx2
    · have h1 := tickLoop_expired_event hx1
      rw [hcl] at h1
      simp at h1
    · simp at hx2
  · rw [hceq]
    intro hs
    have hs2 : s ∈ (tickLoop (JSVal.vnum c) now subs).2 := hs
    have h1 := (tickLoop_mem_rem hs2).2
    rw [hcl] at h1
    simp at h1

/-- C4 witness: the theorem applied to a single reached-and-expired
subscription. -/
theorem C4_witness :
    classify (JSVal.vnum 1100) 20000000 cexSub = .reached := by
  exact (C4_reached_precedence [cexSub] 1100 20000000 cexSub (by simp)
    (by decide) (by decide)).1

/-- C5: getCurrentNumber at a failing input — a decoded upstream record
whose selections object lacks the current-number key — returns undefined
rather than the Unavailable null the contract promises, and even caches
the undefined value; the genuine failure paths (fetch or decode throw,
empty result set) do return null, as the claim states. -/
theorem C5_missing_field_returns_undefined :
    (getCurrentNumber missingFieldEnv 100000 initialNumberCache).ret = JSVal.vundef
    ∧ JSVal.vundef ≠ JSVal.vnull
    ∧ (getCurrentNumber missingFieldEnv 100000 initialNumberCache).cache
        = { value := JSVal.vundef, timestamp := 100000 }
    ∧ (getCurrentNumber none 100000 initialNumberCache).ret = JSVal.vnull
    ∧ (getCurrentNumber (some []) 100000 initialNumberCache).ret = JSVal.vnull := by
  refine ⟨rfl, by decide, rfl, rfl, rfl⟩

/-- C1 counterexample: a tick classifying one subscription as Reached
initiates its notification send inside the classification loop, before the
replace-all persist that closes the tick, so the trace contains a send
followed by the persist — the claimed no-send-before-persist ordering is
violated. -/
theorem C1_counterexample :
    ([cexSub].any fun s => classify (JSVal.vnum 1050) 0 s != Outcome.pending) = true
    ∧ (checkSubscriptions [cexSub] (JSVal.vnum 1050) 0).1
        = [TickEvent.notifyReached cexSub, TickEvent.persist []]
    ∧ noSendBeforePersist (checkSubscriptions [cexSub] (JSVal.vnum 1050) 0).1
        = false := by
  refine ⟨by decide, rfl, by decide⟩

/-- C6 counterexample: when the first call's fetch fails nothing is
cached, so a second call 100 milliseconds later — well within the 60
second TTL — issues a second upstream fetch: two upstream calls in one
TTL window. -/
theorem C6_counterexample :
    twoCallsFetchCount none none 100000 100100 initialNumberCache = 2
    ∧ (100100 : Int) - 100000 < cacheTTL := by
  refine ⟨rfl, by decide⟩

/-- C9 counterexample: a requested target of 900 when the current number
is 1000 is less than the current number, yet validateTargetNumber rejects
it with the out-of-range error, not the already-passed error, and the
subscribe handler replies the same way (still storing nothing). -/
theorem C9_counterexample :
    validateTargetNumber (JSNum.int 900) 1000 = some "out_of_range"
    ∧ (900 : Int) ≤ 1000
    ∧ some "out_of_range" ≠ some "already_passed"
    ∧ subscribe_number [] (JSVal.vnum 1000) (JSNum.int 900) 1 2 "u" 3 0
        = (.badNumber, [], false) := by
  refine ⟨rfl, by decide, by decide, rfl⟩

/-- C1 (amended): within a tick that classifies at least one subscription
as Reached or Expired, every notification send is initiated during the
classification loop, before the replace-all persist, and that persist is
the single final event of the tick — the reverse of the claimed
persist-before-dispatch ordering. -/
theorem C1_amended_sends_precede_persist (subs : List Subscription)
    (currentNumber : JSVal) (now : Int) (hav : currentNumber ≠ .vnull)
    (hfired : (subs.any fun s => classify currentNumber now s != Outcome.pending) = true) :
    allSendsThenOnePersist (checkSubscriptions subs currentNumber now).1 = true := by
  have hne : subs ≠ [] := by
    rintro rfl
    simp at hfired
  rw [checkSubscriptions_eq now hne hav]
  exact allSendsThenOnePersist_append _ _ (tickLoop_events_send _ _ subs)

/-- C1 witness: the amended theorem at a tick firing one subscription. -/
theorem C1_witness :
    allSendsThenOnePersist (checkSubscriptions [cexSub] (JSVal.vnum 1100) 0).1 = true := by
  exact C1_amended_sends_precede_persist [cexSub] (JSVal.vnum 1100) 0 (by decide) (by decide)

/-- C3: a subscription classified Reached or Expired in a tick is excluded
from the set that tick persists, and remains absent from the store under
every sequence of subsequent ticks. -/
theorem C3_at_most_once (subs : List Subscription) (currentNumber : JSVal)
    (now : Int) (s : Subscription) (hav : currentNumber ≠ .vnull)
    (hmem : s ∈ subs) (hfired : classify currentNumber now s ≠ .pending) :
    s ∉ (checkSubscriptions subs currentNumber now).2
    ∧ ∀ laterTicks : List (JSVal × Int),
        s ∉ runTicks laterTicks (checkSubscriptions subs currentNumber now).2 := by
  have hne : subs ≠ [] := by
    rintro rfl
    exact absurd hmem (by simp)
  have hdrop : s ∉ (checkSubscriptions subs currentNumber now).2 := by
    rw [checkSubscriptions_eq now hne hav]
    intro hs
    exact hfired (tickLoop_mem_rem hs).2
  exact ⟨hdrop, fun laterTicks => runTicks_not_mem laterTicks hdrop⟩

/-- C3 witness: a reached subscription is gone after its tick and stays
gone over two further ticks. -/
theorem C3_witness :
    cexSub ∉ runTicks [(JSVal.vnum 1040, 60000), (JSVal.vnum 1100, 120000)]
      ((checkSubscriptions [cexSub] (JSVal.vnum 1100) 0).2) := by
  exact (C3_at_most_once [cexSub] (JSVal.vnum 1100) 0 cexSub (by decide)
    (by simp) (by decide)).2 _

/-- C8: a subscription that has neither reached its target nor exceeded
its expiry window is retained, with identical fields, by a tick and by any
number of repeated ticks with unchanged current number and time. -/
theorem C8_idempotent_pending (subs : List Subscription) (c now : Int)
    (s : Subscription) (hmem : s ∈ subs) (hlt : c < s.target_number)
    (hfresh : now - s.created_at ≤ fiveHours) :
    ∀ k : Nat, s ∈ runTicks (List.replicate k (JSVal.vnum c, now)) subs := by
  have hcl : classify (JSVal.vnum c) now s = .pending := by
    simp [classify, jsGE, hlt.not_le, hfresh.not_lt]
  have key : ∀ k : Nat, ∀ subs2 : List Subscription, s ∈ subs2 →
      s ∈ runTicks (List.replicate k (JSVal.vnum c, now)) subs2 := by
    intro k
    induction k with
    | zero => intro subs2 h; exact h
    | succ k ih =>
      intro subs2 h
      have hne : subs2 ≠ [] := by
        rintro rfl
        exact absurd h (by simp)
      have h2 : s ∈ (checkSubscriptions subs2 (JSVal.vnum c) now).2 := by
        rw [checkSubscriptions_eq now hne (by simp)]
        exact tickLoop_mem_pending h hcl
      simpa [List.replicate_succ, runTicks] using ih _ h2
  exact fun k => key k subs hmem

/-- C8 witness: a pending subscription survives three identical ticks. -/
theorem C8_witness :
    cexSub ∈ runTicks (List.replicate 3 (JSVal.vnum 1040, 600000)) [cexSub] := by
  exact C8_idempotent_pending [cexSub] 1040 600000 cexSub (by simp)
    (by decide) (by decide) 3

/-- C6 (amended): two getCurrentNumber calls within the TTL window issue
one single upstream fetch provided the first call fetched a number and so
installed it in the cache; the second call answers that number from the
cache with no network fetch.  (When the first call's fetch fails, nothing
is cached and a second call re-fetches, as the counterexample shows.) -/
theorem C6_amended_single_fetch (env1 env2 : Option (List UpstreamRecord))
    (t1 t2 : Int) (cache : NumberCache) (n : Int)
    (hfetch : (getCurrentNumber env1 t1 cache).fetched = true)
    (hret : (getCurrentNumber env1 t1 cache).ret = .vnum n)
    (httl : t2 - t1 < cacheTTL) :
    twoCallsFetchCount env1 env2 t1 t2 cache = 1
    ∧ (getCurrentNumber env2 t2 (getCurrentNumber env1 t1 cache).cache).ret = .vnum n
    ∧ (getCurrentNumber env2 t2 (getCurrentNumber env1 t1 cache).cache).fetched = false := by
  have hcache : (getCurrentNumber env1 t1 cache).cache = ⟨.vnum n, t1⟩ := by
    rcases getCurrentNumber_cases env1 t1 cache with ⟨hf, _⟩ | ⟨hr, _⟩ | hc
    · rw [hf] at hfetch
      simp at hfetch
    · rw [hret] at hr
      simp at hr
    · rw [hc, hret]
  have hsecond : getCurrentNumber env2 t2 (⟨.vnum n, t1⟩ : NumberCache)
      = ⟨.vnum n, ⟨.vnum n, t1⟩, false⟩ := getCurrentNumber_cache_hit env2 httl
  refine ⟨?_, ?_, ?_⟩
  · simp [twoCallsFetchCount, hcache, hsecond, hfetch]
  · rw [hcache, hsecond]
  · rw [hcache, hsecond]

/-- C6 witness: a successful fetch of 1042 followed 100 milliseconds later
by a second call totals one upstream fetch. -/
theorem C6_witness :
    twoCallsFetchCount goodEnv none 100000 100100 initialNumberCache = 1 := by
  exact (C6_amended_single_fetch goodEnv none 100000 100100 initialNumberCache
    1042 (by decide) (by decide) (by decide)).1

/-- C7: adding a subscription for a pair that already has one returns the
duplicate error, writes nothing, and leaves the store with exactly one
entry for the pair; moreover addSubscription and removeSubscription both
preserve the at-most-one-per-pair invariant. -/
theorem C7_no_duplicate_subscriptions (subs : List Subscription)
    (chatId userId : Int) (firstName : String) (targetNumber messageId nowMs : Int)
    (hinv : ∀ c u, countPair subs c u ≤ 1)
    (hex : 0 < countPair subs chatId userId) :
    addSubscription subs chatId userId firstName targetNumber messageId nowMs
      = (.er "duplicate", subs, false)
    ∧ countPair subs chatId userId = 1
    ∧ (∀ c2 u2 fn2 t2 m2 nw2 c u,
        countPair (addSubscription subs c2 u2 fn2 t2 m2 nw2).2.1 c u ≤ 1)
    ∧ (∀ c2 u2 c u, countPair (removeSubscription subs c2 u2).2.1 c u ≤ 1) := by
  have hfind : (subs.find? (matchesPair chatId userId)).isSome = true :=
    countPair_pos_iff.1 hex
  refine ⟨?_, ?_, ?_, ?_⟩
  · simp [addSubscription, hfind]
  · exact le_antisymm (hinv _ _) hex
  · intro c2 u2 fn2 t2 m2 nw2 c u
    by_cases hf2 : (subs.find? (matchesPair c2 u2)).isSome = true
    · simpa [addSubscription, hf2] using hinv c u
    · have hzero : countPair subs c2 u2 = 0 := countPair_eq_zero_of_find_none hf2
      have hstep : (addSubscription subs c2 u2 fn2 t2 m2 nw2).2.1
          = subs ++ [⟨c2, u2, fn2, t2, nw2, m2⟩] := by
        simp [addSubscription, hf2]
      rw [hstep, countPair_append_single]
      by_cases hm : matchesPair c u ⟨c2, u2, fn2, t2, nw2, m2⟩ = true
      · have hcc : c2 = c ∧ u2 = u := by simpa [matchesPair] using hm
        obtain ⟨rfl, rfl⟩ := hcc
        simp [hm, hzero]
      · simpa [hm] using hinv c u
  · intro c2 u2 c u
    by_cases hlen : subs.findIdx (matchesPair c2 u2) = subs.length
    · simpa [removeSubscription, hlen] using hinv c u
    · have hstep : (removeSubscription subs c2 u2).2.1
          = subs.eraseIdx (subs.findIdx (matchesPair c2 u2)) := by
        simp [removeSubscription, hlen]
      rw [hstep]
      exact le_trans (countPair_eraseIdx_le _ _ _ _) (hinv c u)

/-- C7 witness: the theorem at a one-entry store and its own pair. -/
theorem C7_witness :
    addSubscription [cexSub] 10 20 "bob" 1060 8 100
      = (.er "duplicate", [cexSub], false) := by
  have hinv : ∀ c u, countPair [cexSub] c u ≤ 1 := by
    intro c u
    simpa [countPair] using List.length_filter_le (matchesPair c u) [cexSub]
  exact (C7_no_duplicate_subscriptions [cexSub] 10 20 "bob" 1060 8 100 hinv
    (by decide)).1

/-- C9 (amended): validation accepts a target only when it is an integer
within the 1001 to 1200 bounds and strictly greater than the current
number; an in-bounds integer target at or below the current number is
rejected with the already-passed error (an out-of-bounds one gets the
range error instead, as the counterexample shows); and the subscribe
handler stores nothing for any target at or below the current number. -/
theorem C9_amended_validation (num : JSNum) (cur : Int) :
    (validateTargetNumber num cur = none →
      ∃ n, num = .int n ∧ MIN_NUMBER ≤ n ∧ n ≤ MAX_NUMBER ∧ cur < n)
    ∧ (∀ n, num = .int n → MIN_NUMBER ≤ n → n ≤ MAX_NUMBER → n ≤ cur →
        validateTargetNumber num cur = some "already_passed")
    ∧ (∀ n, num = .int n → n ≤ cur →
        ∀ subs chatId userId fn mid nowMs,
          (subscribe_number subs (.vnum cur) num chatId userId fn mid nowMs).2.1 = subs
          ∧ (subscribe_number subs (.vnum cur) num chatId userId fn mid nowMs).2.2
              = false) := by
  refine ⟨?_, ?_, ?_⟩
  · intro hv
    cases num with
    | nan => simp [validateTargetNumber] at hv
    | nonIntFloat => simp [validateTargetNumber] at hv
    | int n =>
      refine ⟨n, rfl, ?_⟩
      simp only [validateTargetNumber] at hv
      by_cases h1 : n < MIN_NUMBER ∨ n > MAX_NUMBER
      · rw [if_pos h1] at hv
        exact absurd hv (by simp)
      · rw [if_neg h1] at hv
        by_cases h2 : n ≤ cur
        · rw [if_pos h2] at hv
          exact absurd hv (by simp)
        · exact ⟨not_lt.1 fun h => h1 (Or.inl h),
            not_lt.1 fun h => h1 (Or.inr h), lt_of_not_le h2⟩
  · intro n hn hmin hmax hle
    subst hn
    have h1 : ¬(n < MIN_NUMBER ∨ n > MAX_NUMBER) := by
      push_neg
      exact ⟨hmin, hmax⟩
    simp only [validateTargetNumber]
    rw [if_neg h1, if_pos hle]
  · intro n hn hle subs chatId userId fn mid nowMs
    subst hn
    by_cases hb : n < 1001 ∨ n > 1200
    · constructor <;> simp [subscribe_number, hb]
    · have hjs : jsLEcur n (JSVal.vnum cur) = true := by
        simp [jsLEcur, hle]
      constructor <;> simp [subscribe_number, hb, hjs]

/-- C9 witness: target 1030 with current number 1040, the spec's own
scenario, is rejected as already passed. -/
theorem C9_witness :
    validateTargetNumber (JSNum.int 1030) 1040 = some "already_passed" := by
  exact (C9_amended_validation (JSNum.int 1030) 1040).2.1 1030 rfl
    (by decide) (by decide) (by decide)

/-- C10: removing for a pair with no matching entry returns none and
performs no store write, leaving the collection untouched; when a match
exists, exactly the entry at the first matching index is removed, the
entries before and after it are preserved in order, and every earlier
entry indeed fails the pair predicate. -/
theorem C10_remove_frame (subs : List Subscription) (chatId userId : Int) :
    ((∀ x ∈ subs, matchesPair chatId userId x = false) →
        removeSubscription subs chatId userId = (none, subs, false))
    ∧ (∀ i, subs.findIdx (matchesPair chatId userId) = i → i < subs.length →
        removeSubscription subs chatId userId
          = (subs[i]?, subs.take i ++ subs.drop (i + 1), true)
        ∧ ∀ j (hj : j < subs.length), j < i →
            matchesPair chatId userId subs[j] = false) := by
  constructor
  · intro hall
    have hlen := List.findIdx_eq_length_of_false hall
    simp [removeSubscription, hlen]
  · intro i hidx hlt
    constructor
    · have hne : subs.findIdx (matchesPair chatId userId) ≠ subs.length := by
        rw [hidx]
        exact Nat.ne_of_lt hlt
      simp only [removeSubscription, hidx, if_neg (hidx ▸ hne)]
      rw [List.eraseIdx_eq_take_drop_succ]
    · intro j hj hji
      have hfi : j < subs.findIdx (matchesPair chatId userId) := by
        rw [hidx]
        exact hji
      exact List.not_of_lt_findIdx hfi

/-- C10 witness: removal at the middle of a three-entry store. -/
theorem C10_witness :
    removeSubscription [⟨1, 1, "a", 1010, 0, 1⟩, ⟨5, 6, "b", 1020, 0, 2⟩,
        ⟨7, 8, "c", 1030, 0, 3⟩] 5 6
      = (some ⟨5, 6, "b", 1020, 0, 2⟩,
          [⟨1, 1, "a", 1010, 0, 1⟩, ⟨7, 8, "c", 1030, 0, 3⟩], true) := by
  have h := (C10_remove_frame [⟨1, 1, "a", 1010, 0, 1⟩, ⟨5, 6, "b", 1020, 0, 2⟩,
    ⟨7, 8, "c", 1030, 0, 3⟩] 5 6).2 1 (by decide) (by decide)
  rw [h.1]
  rfl

end Gonokami
